import Mathlib

/-!
Shallow embedding of the `ero-cassandra` crate: the `ClusterParams`
configuration record, the four resource-lifecycle callbacks
(`init`, `aquire`, `release`, `close`) from `src/lib.rs`, and the
retry-loop step closure of `examples/restart_3.rs`.

The backend (`cassandra_cpp`) is an opaque external collaborator: its
fallible operations are modelled by a `BackendEnv` of success flags, and
the `Cluster` object records the configuration values handed to it, so
that theorems can quantify over every possible backend behaviour.
Machine-integer narrowing (`usize as u32`) is modelled as `% 2 ^ 32`.
-/

namespace EroCassandra

/-- Severity taxonomy of the `ero` crate, as used in the callback
signatures of `src/lib.rs`: `Recoverable` carries retry state, `Fatal`
carries a terminal reason. -/
inductive ErrorSeverity (S F : Type) where
  | Recoverable (state : S)
  | Fatal (reason : F)
deriving DecidableEq, Repr

/-- Configuration record `ClusterParams` of `src/lib.rs`. Rust `usize`
fields are modelled as `Nat`. -/
structure ClusterParams where
  contact_points : String
  keyspace : String
  num_threads_io : Nat
  queue_size_io : Nat
  queue_size_event : Nat
  core_connections_per_host : Nat
  max_connections_per_host : Nat
  max_concurrent_creation : Nat
  max_requests_per_flush : Nat
  write_bytes_high_water_mark : Nat
  pending_requests_high_water_mark : Nat
  load_balance_round_robin : Bool
  token_aware_routing : Bool
  use_schema : Bool
deriving DecidableEq, Repr

/-- The `Default` impl for `ClusterParams` in `src/lib.rs`. -/
def ClusterParams.default : ClusterParams :=
  { contact_points := "127.0.0.1",
    keyspace := "default",
    num_threads_io := 2,
    queue_size_io := 16384,
    queue_size_event := 32768,
    core_connections_per_host := 2,
    max_connections_per_host := 4,
    max_concurrent_creation := 2,
    max_requests_per_flush := 256,
    write_bytes_high_water_mark := 1024 * 1024,
    pending_requests_high_water_mark := 512,
    load_balance_round_robin := true,
    token_aware_routing := false,
    use_schema := false }

/-- Model of the `cassandra_cpp::Cluster` object: it records every
configuration value the crate hands to the backend. A `none` field was
never set. -/
structure Cluster where
  contact_points : Option String
  num_threads_io : Option Nat
  queue_size_io : Option Nat
  queue_size_event : Option Nat
  core_connections_per_host : Option Nat
  max_connections_per_host : Option Nat
  max_concurrent_creation : Option Nat
  max_requests_per_flush : Option Nat
  write_bytes_high_water_mark : Option Nat
  pending_requests_high_water_mark : Option Nat
  load_balance_round_robin : Bool
  token_aware_routing : Bool
  use_schema : Bool
deriving DecidableEq, Repr

/-- `Cluster::default()`: nothing configured yet. -/
def Cluster.default : Cluster :=
  { contact_points := none,
    num_threads_io := none,
    queue_size_io := none,
    queue_size_event := none,
    core_connections_per_host := none,
    max_connections_per_host := none,
    max_concurrent_creation := none,
    max_requests_per_flush := none,
    write_bytes_high_water_mark := none,
    pending_requests_high_water_mark := none,
    load_balance_round_robin := false,
    token_aware_routing := false,
    use_schema := false }

/-- Success flags for each fallible backend operation invoked by `init`,
plus the identity of the `Session` object freshly allocated (behind an
`Arc`) during a successful connect. Quantifying theorems over
`BackendEnv` quantifies over every backend behaviour. -/
structure BackendEnv where
  set_contact_points_ok : Bool
  set_num_threads_io_ok : Bool
  set_queue_size_io_ok : Bool
  set_queue_size_event_ok : Bool
  set_core_connections_per_host_ok : Bool
  set_max_connections_per_host_ok : Bool
  set_max_concurrent_creation_ok : Bool
  set_max_requests_per_flush_ok : Bool
  set_write_bytes_high_water_mark_ok : Bool
  set_pending_requests_high_water_mark_ok : Bool
  connect_keyspace_ok : Bool
  connect_future_ok : Bool
  fresh_session : Nat
deriving DecidableEq, Repr

/-- Narrowing performed by each `as u32` cast in `init`. -/
def u32 (n : Nat) : Nat := n % 2 ^ 32

/-- Rust's `Result::map_err`. -/
def mapErr (f : E → F) : Except E A → Except F A
  | Except.ok a => Except.ok a
  | Except.error e => Except.error (f e)

def Cluster.set_contact_points (env : BackendEnv) (c : Cluster) (s : String) :
    Except Unit Cluster :=
  if env.set_contact_points_ok then Except.ok { c with contact_points := some s }
  else Except.error ()

def Cluster.set_num_threads_io (env : BackendEnv) (c : Cluster) (n : Nat) :
    Except Unit Cluster :=
  if env.set_num_threads_io_ok then Except.ok { c with num_threads_io := some n }
  else Except.error ()

def Cluster.set_queue_size_io (env : BackendEnv) (c : Cluster) (n : Nat) :
    Except Unit Cluster :=
  if env.set_queue_size_io_ok then Except.ok { c with queue_size_io := some n }
  else Except.error ()

def Cluster.set_queue_size_event (env : BackendEnv) (c : Cluster) (n : Nat) :
    Except Unit Cluster :=
  if env.set_queue_size_event_ok then Except.ok { c with queue_size_event := some n }
  else Except.error ()

def Cluster.set_core_connections_per_host (env : BackendEnv) (c : Cluster) (n : Nat) :
    Except Unit Cluster :=
  if env.set_core_connections_per_host_ok then
    Except.ok { c with core_connections_per_host := some n }
  else Except.error ()

def Cluster.set_max_connections_per_host (env : BackendEnv) (c : Cluster) (n : Nat) :
    Except Unit Cluster :=
  if env.set_max_connections_per_host_ok then
    Except.ok { c with max_connections_per_host := some n }
  else Except.error ()

def Cluster.set_max_concurrent_creation (env : BackendEnv) (c : Cluster) (n : Nat) :
    Except Unit Cluster :=
  if env.set_max_concurrent_creation_ok then
    Except.ok { c with max_concurrent_creation := some n }
  else Except.error ()

def Cluster.set_max_requests_per_flush (env : BackendEnv) (c : Cluster) (n : Nat) :
    Except Unit Cluster :=
  if env.set_max_requests_per_flush_ok then
    Except.ok { c with max_requests_per_flush := some n }
  else Except.error ()

def Cluster.set_write_bytes_high_water_mark (env : BackendEnv) (c : Cluster) (n : Nat) :
    Except Unit Cluster :=
  if env.set_write_bytes_high_water_mark_ok then
    Except.ok { c with write_bytes_high_water_mark := some n }
  else Except.error ()

def Cluster.set_pending_requests_high_water_mark (env : BackendEnv) (c : Cluster) (n : Nat) :
    Except Unit Cluster :=
  if env.set_pending_requests_high_water_mark_ok then
    Except.ok { c with pending_requests_high_water_mark := some n }
  else Except.error ()

def Cluster.set_load_balance_round_robin (c : Cluster) : Cluster :=
  { c with load_balance_round_robin := true }

def Cluster.set_token_aware_routing (c : Cluster) (b : Bool) : Cluster :=
  { c with token_aware_routing := b }

def Cluster.set_use_schema (c : Cluster) (b : Bool) : Cluster :=
  { c with use_schema := b }

/-- Reference-counted session wrapper `SharedSession` of `src/lib.rs`.
The `Nat` identifies the `Arc`-allocated backend `Session` object, so a
clone of the `Arc` yields the same identifier. -/
structure SharedSession where
  session : Nat
deriving DecidableEq, Repr

/-- The live resource `ConnectedCluster` of `src/lib.rs`. -/
structure ConnectedCluster where
  session : SharedSession
  cluster : Cluster
  params : ClusterParams
deriving DecidableEq, Repr

/-- First stage of `init` (the `lazy` block of `src/lib.rs` lines
116-202): the `map_err`/`and_then` chain configuring the cluster.
A `set_contact_points` failure is tagged `Recoverable`, each numeric
setter failure is tagged `Fatal`; on success the three unconditional
setters run and the configured cluster is returned. -/
def init_config (env : BackendEnv) (params : ClusterParams) :
    Except (ErrorSeverity Unit Unit) Cluster :=
  (mapErr (fun _ => ErrorSeverity.Recoverable ())
      (Cluster.default.set_contact_points env params.contact_points)).bind fun c =>
  (mapErr (fun _ => ErrorSeverity.Fatal ())
      (c.set_num_threads_io env (u32 params.num_threads_io))).bind fun c =>
  (mapErr (fun _ => ErrorSeverity.Fatal ())
      (c.set_queue_size_io env (u32 params.queue_size_io))).bind fun c =>
  (mapErr (fun _ => ErrorSeverity.Fatal ())
      (c.set_queue_size_event env (u32 params.queue_size_event))).bind fun c =>
  (mapErr (fun _ => ErrorSeverity.Fatal ())
      (c.set_core_connections_per_host env (u32 params.core_connections_per_host))).bind fun c =>
  (mapErr (fun _ => ErrorSeverity.Fatal ())
      (c.set_max_connections_per_host env (u32 params.max_connections_per_host))).bind fun c =>
  (mapErr (fun _ => ErrorSeverity.Fatal ())
      (c.set_max_concurrent_creation env (u32 params.max_concurrent_creation))).bind fun c =>
  (mapErr (fun _ => ErrorSeverity.Fatal ())
      (c.set_max_requests_per_flush env (u32 params.max_requests_per_flush))).bind fun c =>
  (mapErr (fun _ => ErrorSeverity.Fatal ())
      (c.set_write_bytes_high_water_mark env (u32 params.write_bytes_high_water_mark))).bind fun c =>
  (mapErr (fun _ => ErrorSeverity.Fatal ())
      (c.set_pending_requests_high_water_mark env
        (u32 params.pending_requests_high_water_mark))).bind fun c =>
  Except.ok
    (((if params.load_balance_round_robin then c.set_load_balance_round_robin
       else c).set_token_aware_routing
        params.token_aware_routing).set_use_schema params.use_schema)

/-- The `init` callback of `src/lib.rs` (lines 111-233): configure a
fresh cluster, re-tag the unit-state severities with the params, then
connect a new `Session` to the keyspace; every connect failure is
`Recoverable` carrying the params. -/
def init (env : BackendEnv) (params : ClusterParams) :
    Except (ErrorSeverity ClusterParams Unit) ConnectedCluster :=
  match init_config env params with
  | Except.error (ErrorSeverity.Recoverable _) =>
      Except.error (ErrorSeverity.Recoverable params)
  | Except.error (ErrorSeverity.Fatal _) =>
      Except.error (ErrorSeverity.Fatal ())
  | Except.ok cluster =>
      if env.connect_keyspace_ok then
        if env.connect_future_ok then
          Except.ok { session := { session := env.fresh_session },
                      cluster := cluster,
                      params := params }
        else Except.error (ErrorSeverity.Recoverable params)
      else Except.error (ErrorSeverity.Recoverable params)

/-- The `aquire` callback of `src/lib.rs` (lines 235-241): clone the
`Arc` (same underlying session identity) and hand the resource back. -/
def aquire (connected : ConnectedCluster) :
    Except (ErrorSeverity ClusterParams Unit) (SharedSession × ConnectedCluster) :=
  Except.ok ({ session := connected.session.session }, connected)

/-- The `release` callback of `src/lib.rs` (lines 243-250): ignores the
returned session and succeeds with the resource unchanged. -/
def release (connected : ConnectedCluster) (_maybe_session : Option SharedSession) :
    Except (ErrorSeverity ClusterParams Unit) ConnectedCluster :=
  Except.ok connected

/-- The `close` callback of `src/lib.rs` (lines 252-258): succeeds,
returning the stored params; its error type is the bare fatal reason. -/
def close (connected : ConnectedCluster) : Except Unit ClusterParams :=
  Except.ok connected.params

/-- All backend operations succeed; the fresh session is object 0. -/
def envAllOk : BackendEnv :=
  { set_contact_points_ok := true,
    set_num_threads_io_ok := true,
    set_queue_size_io_ok := true,
    set_queue_size_event_ok := true,
    set_core_connections_per_host_ok := true,
    set_max_connections_per_host_ok := true,
    set_max_concurrent_creation_ok := true,
    set_max_requests_per_flush_ok := true,
    set_write_bytes_high_water_mark_ok := true,
    set_pending_requests_high_water_mark_ok := true,
    connect_keyspace_ok := true,
    connect_future_ok := true,
    fresh_session := 0 }

end EroCassandra

namespace Restart3

open EroCassandra

/-- Loop control of the `ero` crate, as used by `examples/restart_3.rs`:
keep iterating with new state, or stop with a final value. -/
inductive Loop (S V : Type) where
  | Continue (s : S)
  | Break (v : V)
deriving DecidableEq, Repr

/-- The `UsingResource` outcome of the `ero` crate: whether the session
is still usable after a use, or must be retired. -/
inductive UsingResource where
  | Kept
  | Lost
deriving DecidableEq, Repr

instance {E A : Type} [DecidableEq E] [DecidableEq A] : DecidableEq (Except E A) := fun a b =>
  match a, b with
  | Except.ok x, Except.ok y =>
      if h : x = y then isTrue (by rw [h])
      else isFalse (fun hh => h (Except.ok.inj hh))
  | Except.error x, Except.error y =>
      if h : x = y then isTrue (by rw [h])
      else isFalse (fun hh => h (Except.error.inj hh))
  | Except.ok _, Except.error _ => isFalse (fun hh => Except.noConfusion hh)
  | Except.error _, Except.ok _ => isFalse (fun hh => Except.noConfusion hh)

/-- Model of a `cassandra_cpp` column value as observed by the step
closure: its `is_null` answer and its `Value::get_string` result. -/
structure ValueModel where
  is_null : Bool
  get_string : Except Unit String
deriving DecidableEq, Repr

/-- Model of a result row: the outcome of `row.get_column(0)`. -/
structure RowModel where
  get_column0 : Except Unit ValueModel
deriving DecidableEq, Repr

/-- Backend behaviour observed by one invocation of the step closure of
`examples/restart_3.rs`: whether `set_consistency` and `execute`
succeed, and the `first_row` of the result. -/
structure QueryEnv where
  set_consistency_ok : Bool
  execute_ok : Bool
  first_row : Option RowModel
deriving DecidableEq, Repr

/-- The step closure passed to `using_resource_loop` in
`examples/restart_3.rs` (lines 89-165), for a fixed query environment.
State is `(counter, query)`. When `counter < 3` the query futures run:
every successful path yields `Loop.Continue (counter + 1, query)`,
which the final `then` converts into a `Recoverable` severity carrying
that state; every backend failure is `Fatal`. When `counter >= 3` the
step immediately returns `(Lost, Break ())`. -/
def step (env : QueryEnv) (counter : Nat) (query : String) :
    Except (ErrorSeverity (Nat × String) Unit) (UsingResource × Loop (Nat × String) Unit) :=
  if counter < 3 then
    let stage1 : Except (ErrorSeverity (Nat × String) Unit) (String × Nat) :=
      if env.set_consistency_ok then Except.ok (query, counter)
      else Except.error (ErrorSeverity.Fatal ())
    let stage2 : Except (ErrorSeverity (Nat × String) Unit) (String × Nat) :=
      stage1.bind fun qc =>
        if env.execute_ok then Except.ok qc
        else Except.error (ErrorSeverity.Fatal ())
    let stage3 : Except (ErrorSeverity (Nat × String) Unit) (Loop (Nat × String) Unit) :=
      stage2.bind fun qc =>
        match env.first_row with
        | none => Except.ok (Loop.Continue (qc.2 + 1, qc.1))
        | some row =>
            match RowModel.get_column0 row with
            | Except.ok value =>
                if ValueModel.is_null value then
                  Except.ok (Loop.Continue (qc.2 + 1, qc.1))
                else
                  match ValueModel.get_string value with
                  | Except.ok _ => Except.ok (Loop.Continue (qc.2 + 1, qc.1))
                  | Except.error _ => Except.error (ErrorSeverity.Fatal ())
            | Except.error _ => Except.error (ErrorSeverity.Fatal ())
    match stage3 with
    | Except.ok (Loop.Continue state) =>
        Except.error (ErrorSeverity.Recoverable state)
    | Except.ok (Loop.Break v) => Except.ok (UsingResource.Lost, Loop.Break v)
    | Except.error e => Except.error e
  else
    Except.ok (UsingResource.Lost, Loop.Break ())

/-- Modelled from the spec: the retry-loop combinator
`usingResourceLoop` of the external `ero` crate, which is not part of
this repository (only its call site in `examples/restart_3.rs` is).
Per the spec (section 4.3): acquire a session and invoke the step; on
`Continue` with outcome `Kept`, loop again with the new state; on a
`Recoverable` severity, the carried state is preserved verbatim, the
session is reported `Lost` forcing a restart cycle, and the loop
resumes from that state; on `Break v`, terminate returning `v`; on
`Fatal`, terminate with failure. `restarts` counts restart cycles and
`attempts` counts step invocations made so far; `fuel` bounds the
number of iterations (`none` means fuel ran out), and a `Fatal` stop is
`some (Except.error ())`. -/
def using_resource_loop (fuel : Nat)
    (stepF : S → Except (ErrorSeverity S Unit) (UsingResource × Loop S V))
    (state : S) (restarts attempts : Nat) :
    Option (Except Unit (Nat × Nat × V)) :=
  match fuel with
  | 0 => none
  | fuel + 1 =>
      match stepF state with
      | Except.ok (_, Loop.Break v) =>
          some (Except.ok (restarts, attempts + 1, v))
      | Except.ok (_, Loop.Continue s) =>
          using_resource_loop fuel stepF s restarts (attempts + 1)
      | Except.error (ErrorSeverity.Recoverable s) =>
          using_resource_loop fuel stepF s (restarts + 1) (attempts + 1)
      | Except.error (ErrorSeverity.Fatal _) => some (Except.error ())

/-- Query environment where every backend operation succeeds and the
result set is empty (the `first_row = None` path of the closure). -/
def envOkQ : QueryEnv :=
  { set_consistency_ok := true, execute_ok := true, first_row := none }

/-- Decides whether the row-inspection part of the step closure takes a
successful (`Continue`) path for a given first row. -/
def rowSuccess : Option RowModel → Bool
  | none => true
  | some row =>
      match RowModel.get_column0 row with
      | Except.ok value =>
          if ValueModel.is_null value then true
          else
            match ValueModel.get_string value with
            | Except.ok _ => true
            | Except.error _ => false
      | Except.error _ => false

end Restart3

namespace EroCassandra

/-- Backend environment where setting the contact points fails. -/
def envContactFail : BackendEnv := { envAllOk with set_contact_points_ok := false }

/-- The connected cluster produced by `init` under `envAllOk` from the
default params. -/
def connDefault : ConnectedCluster :=
  { session := { session := 0 },
    cluster :=
      { contact_points := some "127.0.0.1",
        num_threads_io := some 2,
        queue_size_io := some 16384,
        queue_size_event := some 32768,
        core_connections_per_host := some 2,
        max_connections_per_host := some 4,
        max_concurrent_creation := some 2,
        max_requests_per_flush := some 256,
        write_bytes_high_water_mark := some 1048576,
        pending_requests_high_water_mark := some 512,
        load_balance_round_robin := true,
        token_aware_routing := false,
        use_schema := false },
    params := ClusterParams.default }

/-- Default params with the io-thread knob pushed beyond the u32 range. -/
def pBig : ClusterParams := { ClusterParams.default with num_threads_io := 2 ^ 32 + 5 }

/-- The connected cluster produced by `init` under `envAllOk` from
`pBig`: the oversized knob reaches the backend truncated to 5. -/
def connBig : ConnectedCluster :=
  { connDefault with
    cluster := { connDefault.cluster with num_threads_io := some 5 },
    params := pBig }

theorem mapErr_ok {E F A : Type} {f : E → F} {x : Except E A} {a : A}
    (h : mapErr f x = Except.ok a) : x = Except.ok a := by
  cases x with
  | ok b => simp only [mapErr] at h; rw [Except.ok.inj h]
  | error e => simp only [mapErr] at h; exact Except.noConfusion h

theorem except_bind_ok {E A B : Type} {x : Except E A} {f : A → Except E B} {b : B}
    (h : x.bind f = Except.ok b) : ∃ a, x = Except.ok a ∧ f a = Except.ok b := by
  cases x with
  | ok a => simp only [Except.bind] at h; exact ⟨a, rfl, h⟩
  | error e => simp only [Except.bind] at h; exact Except.noConfusion h

theorem set_ok {flag : Bool} {c2 upd : Cluster}
    (h : (if flag then Except.ok upd else Except.error ()) = Except.ok c2) : upd = c2 := by
  cases flag with
  | false => simp at h
  | true => simp at h; simp [h]

theorem init_ok_inv {env : BackendEnv} {p : ClusterParams} {c : ConnectedCluster}
    (h : init env p = Except.ok c) :
    ∃ cluster, init_config env p = Except.ok cluster ∧
      c = { session := { session := env.fresh_session },
            cluster := cluster, params := p } := by
  unfold init at h
  cases hcfg : init_config env p with
  | error e =>
      rw [hcfg] at h
      cases e with
      | Recoverable s => exact Except.noConfusion h
      | Fatal r => exact Except.noConfusion h
  | ok cluster =>
      rw [hcfg] at h
      cases hk : env.connect_keyspace_ok with
      | false => rw [hk] at h; exact Except.noConfusion h
      | true =>
          rw [hk] at h
          cases hf : env.connect_future_ok with
          | false => rw [hf] at h; exact Except.noConfusion h
          | true =>
              rw [hf] at h
              exact ⟨cluster, rfl, (Except.ok.inj h).symm⟩

/-- C1: resource-lifecycle round-trip: whenever `init` succeeds for
params `p` under any backend behaviour, `close` on the resulting
connected cluster returns exactly `p`, every field unchanged, so the
next restart cycle restarts from the same configuration. -/
theorem init_close_roundtrip (env : BackendEnv) (p : ClusterParams) (c : ConnectedCluster)
    (h : init env p = Except.ok c) : close c = Except.ok p := by
  obtain ⟨cluster, -, rfl⟩ := init_ok_inv h
  rfl

/-- C1 witness: under the all-success backend, `init` on the default
params yields `connDefault` and `close` gives the params back. -/
theorem init_close_roundtrip_witness :
    init envAllOk ClusterParams.default = Except.ok connDefault ∧
    close connDefault = Except.ok ClusterParams.default :=
  ⟨rfl, init_close_roundtrip envAllOk ClusterParams.default connDefault rfl⟩

/-- C5: every `Recoverable` error produced by `init` carries exactly
the params that were passed in, with no field altered or dropped. -/
theorem init_recoverable_carries_params (env : BackendEnv) (p p2 : ClusterParams)
    (h : init env p = Except.error (ErrorSeverity.Recoverable p2)) : p2 = p := by
  unfold init at h
  cases hcfg : init_config env p with
  | error e =>
      rw [hcfg] at h
      cases e with
      | Recoverable s => exact (ErrorSeverity.Recoverable.inj (Except.error.inj h)).symm
      | Fatal r => exact ErrorSeverity.noConfusion (Except.error.inj h)
  | ok cluster =>
      rw [hcfg] at h
      cases hk : env.connect_keyspace_ok with
      | false =>
          rw [hk] at h
          exact (ErrorSeverity.Recoverable.inj (Except.error.inj h)).symm
      | true =>
          rw [hk] at h
          cases hf : env.connect_future_ok with
          | false =>
              rw [hf] at h
              exact (ErrorSeverity.Recoverable.inj (Except.error.inj h)).symm
          | true => rw [hf] at h; exact Except.noConfusion h

/-- C5 witness: a contact-points failure on the default params yields a
`Recoverable` error carrying those same default params. -/
theorem init_recoverable_carries_params_witness :
    init envContactFail ClusterParams.default
      = Except.error (ErrorSeverity.Recoverable ClusterParams.default) ∧
    ClusterParams.default = ClusterParams.default :=
  ⟨rfl,
   init_recoverable_carries_params envContactFail ClusterParams.default ClusterParams.default
     rfl⟩

/-- C9: whenever `init` succeeds, each of the nine numeric tuning knobs
reaches the backend cluster reduced modulo `2 ^ 32`, exactly as the
`usize as u32` casts do. -/
theorem init_truncates_knobs (env : BackendEnv) (p : ClusterParams) (c : ConnectedCluster)
    (h : init env p = Except.ok c) :
    c.cluster.num_threads_io = some (p.num_threads_io % 2 ^ 32) ∧
    c.cluster.queue_size_io = some (p.queue_size_io % 2 ^ 32) ∧
    c.cluster.queue_size_event = some (p.queue_size_event % 2 ^ 32) ∧
    c.cluster.core_connections_per_host = some (p.core_connections_per_host % 2 ^ 32) ∧
    c.cluster.max_connections_per_host = some (p.max_connections_per_host % 2 ^ 32) ∧
    c.cluster.max_concurrent_creation = some (p.max_concurrent_creation % 2 ^ 32) ∧
    c.cluster.max_requests_per_flush = some (p.max_requests_per_flush % 2 ^ 32) ∧
    c.cluster.write_bytes_high_water_mark = some (p.write_bytes_high_water_mark % 2 ^ 32) ∧
    c.cluster.pending_requests_high_water_mark
      = some (p.pending_requests_high_water_mark % 2 ^ 32) := by
  obtain ⟨cluster, hcfg, rfl⟩ := init_ok_inv h
  obtain ⟨f1, f2, f3, f4, f5, f6, f7, f8, f9, f10, f11, f12, fs⟩ := env
  cases f1 with
  | false => exact Except.noConfusion hcfg
  | true =>
  cases f2 with
  | false => exact Except.noConfusion hcfg
  | true =>
  cases f3 with
  | false => exact Except.noConfusion hcfg
  | true =>
  cases f4 with
  | false => exact Except.noConfusion hcfg
  | true =>
  cases f5 with
  | false => exact Except.noConfusion hcfg
  | true =>
  cases f6 with
  | false => exact Except.noConfusion hcfg
  | true =>
  cases f7 with
  | false => exact Except.noConfusion hcfg
  | true =>
  cases f8 with
  | false => exact Except.noConfusion hcfg
  | true =>
  cases f9 with
  | false => exact Except.noConfusion hcfg
  | true =>
  cases f10 with
  | false => exact Except.noConfusion hcfg
  | true =>
  obtain ⟨a1, a2, a3, a4, a5, a6, a7, a8, a9, a10, a11, a12, a13, a14⟩ := p
  cases a12 with
  | false =>
      have hval : init_config
          { set_contact_points_ok := true, set_num_threads_io_ok := true,
            set_queue_size_io_ok := true, set_queue_size_event_ok := true,
            set_core_connections_per_host_ok := true, set_max_connections_per_host_ok := true,
            set_max_concurrent_creation_ok := true, set_max_requests_per_flush_ok := true,
            set_write_bytes_high_water_mark_ok := true,
            set_pending_requests_high_water_mark_ok := true,
            connect_keyspace_ok := f11, connect_future_ok := f12, fresh_session := fs }
          { contact_points := a1, keyspace := a2, num_threads_io := a3, queue_size_io := a4,
            queue_size_event := a5, core_connections_per_host := a6,
            max_connections_per_host := a7, max_concurrent_creation := a8,
            max_requests_per_flush := a9, write_bytes_high_water_mark := a10,
            pending_requests_high_water_mark := a11, load_balance_round_robin := false,
            token_aware_routing := a13, use_schema := a14 }
          = Except.ok
            { contact_points := some a1, num_threads_io := some (u32 a3),
              queue_size_io := some (u32 a4), queue_size_event := some (u32 a5),
              core_connections_per_host := some (u32 a6),
              max_connections_per_host := some (u32 a7),
              max_concurrent_creation := some (u32 a8), max_requests_per_flush := some (u32 a9),
              write_bytes_high_water_mark := some (u32 a10),
              pending_requests_high_water_mark := some (u32 a11),
              load_balance_round_robin := false, token_aware_routing := a13,
              use_schema := a14 } := rfl
      rw [hval] at hcfg
      have hc2 := Except.ok.inj hcfg
      subst hc2
      exact ⟨rfl, rfl, rfl, rfl, rfl, rfl, rfl, rfl, rfl⟩
  | true =>
      have hval : init_config
          { set_contact_points_ok := true, set_num_threads_io_ok := true,
            set_queue_size_io_ok := true, set_queue_size_event_ok := true,
            set_core_connections_per_host_ok := true, set_max_connections_per_host_ok := true,
            set_max_concurrent_creation_ok := true, set_max_requests_per_flush_ok := true,
            set_write_bytes_high_water_mark_ok := true,
            set_pending_requests_high_water_mark_ok := true,
            connect_keyspace_ok := f11, connect_future_ok := f12, fresh_session := fs }
          { contact_points := a1, keyspace := a2, num_threads_io := a3, queue_size_io := a4,
            queue_size_event := a5, core_connections_per_host := a6,
            max_connections_per_host := a7, max_concurrent_creation := a8,
            max_requests_per_flush := a9, write_bytes_high_water_mark := a10,
            pending_requests_high_water_mark := a11, load_balance_round_robin := true,
            token_aware_routing := a13, use_schema := a14 }
          = Except.ok
            { contact_points := some a1, num_threads_io := some (u32 a3),
              queue_size_io := some (u32 a4), queue_size_event := some (u32 a5),
              core_connections_per_host := some (u32 a6),
              max_connections_per_host := some (u32 a7),
              max_concurrent_creation := some (u32 a8), max_requests_per_flush := some (u32 a9),
              write_bytes_high_water_mark := some (u32 a10),
              pending_requests_high_water_mark := some (u32 a11),
              load_balance_round_robin := true, token_aware_routing := a13,
              use_schema := a14 } := rfl
      rw [hval] at hcfg
      have hc2 := Except.ok.inj hcfg
      subst hc2
      exact ⟨rfl, rfl, rfl, rfl, rfl, rfl, rfl, rfl, rfl⟩

/-- C9 witness: a knob of `2 ^ 32 + 5` reaches the backend as `5`. -/
theorem init_truncates_knobs_witness :
    init envAllOk pBig = Except.ok connBig ∧
    connBig.cluster.num_threads_io = some (pBig.num_threads_io % 2 ^ 32) :=
  ⟨rfl, (init_truncates_knobs envAllOk pBig connBig rfl).1⟩

/-- C3: `close` never fails, and in particular is never `Recoverable`:
its error type is the bare fatal reason, and for every connected
cluster it returns `ok` with the stored params, so its error branch is
unreachable. -/
theorem close_never_fails (c : ConnectedCluster) : close c = Except.ok c.params := rfl

/-- C4: `aquire` always succeeds, returns the resource unchanged, and
the handed-out session carries the same underlying session identity as
the resource's own shared session. -/
theorem aquire_shares_session (c : ConnectedCluster) :
    aquire c = Except.ok ({ session := c.session.session }, c) := rfl

/-- C6: `release` is a pure no-op: for every resource and every
optional session (`none` or `some`) it succeeds with the resource
unchanged and never produces an error. -/
theorem release_noop (c : ConnectedCluster) (ms : Option SharedSession) :
    release c ms = Except.ok c := rfl

/-- C10: `ClusterParams::default()` returns exactly the documented
values. -/
theorem default_params_exact :
    ClusterParams.default =
      { contact_points := "127.0.0.1",
        keyspace := "default",
        num_threads_io := 2,
        queue_size_io := 16384,
        queue_size_event := 32768,
        core_connections_per_host := 2,
        max_connections_per_host := 4,
        max_concurrent_creation := 2,
        max_requests_per_flush := 256,
        write_bytes_high_water_mark := 1048576,
        pending_requests_high_water_mark := 512,
        load_balance_round_robin := true,
        token_aware_routing := false,
        use_schema := false } := by decide

/-- C8: severity classification inside `init`: a contact-points failure
or a failure of either keyspace-connection phase is `Recoverable`
(carrying the params), while a failure of any of the nine numeric
option setters is `Fatal`. -/
theorem init_severity_classification (p : ClusterParams) :
    init envContactFail p = Except.error (ErrorSeverity.Recoverable p) ∧
    init { envAllOk with set_num_threads_io_ok := false } p
      = Except.error (ErrorSeverity.Fatal ()) ∧
    init { envAllOk with set_queue_size_io_ok := false } p
      = Except.error (ErrorSeverity.Fatal ()) ∧
    init { envAllOk with set_queue_size_event_ok := false } p
      = Except.error (ErrorSeverity.Fatal ()) ∧
    init { envAllOk with set_core_connections_per_host_ok := false } p
      = Except.error (ErrorSeverity.Fatal ()) ∧
    init { envAllOk with set_max_connections_per_host_ok := false } p
      = Except.error (ErrorSeverity.Fatal ()) ∧
    init { envAllOk with set_max_concurrent_creation_ok := false } p
      = Except.error (ErrorSeverity.Fatal ()) ∧
    init { envAllOk with set_max_requests_per_flush_ok := false } p
      = Except.error (ErrorSeverity.Fatal ()) ∧
    init { envAllOk with set_write_bytes_high_water_mark_ok := false } p
      = Except.error (ErrorSeverity.Fatal ()) ∧
    init { envAllOk with set_pending_requests_high_water_mark_ok := false } p
      = Except.error (ErrorSeverity.Fatal ()) ∧
    init { envAllOk with connect_keyspace_ok := false } p
      = Except.error (ErrorSeverity.Recoverable p) ∧
    init { envAllOk with connect_future_ok := false } p
      = Except.error (ErrorSeverity.Recoverable p) :=
  ⟨rfl, rfl, rfl, rfl, rfl, rfl, rfl, rfl, rfl, rfl, rfl, rfl⟩

end EroCassandra

namespace Restart3

open EroCassandra

/-- C7: when the example step takes a successful query path while the
counter is below the break threshold, the `Recoverable` severity it
signals carries exactly the incremented state `(counter + 1, query)`,
and the retry loop resumes its next iteration from that carried state
(recording one more restart cycle), not from the initial state. -/
theorem step_preserves_state (env : QueryEnv) (counter : Nat) (q : String)
    (fuel restarts attempts : Nat)
    (h1 : env.set_consistency_ok = true) (h2 : env.execute_ok = true)
    (h3 : rowSuccess env.first_row = true) (hc : counter < 3) :
    step env counter q = Except.error (ErrorSeverity.Recoverable (counter + 1, q)) ∧
    using_resource_loop (fuel + 1) (fun s => step env s.1 s.2) (counter, q) restarts attempts
      = using_resource_loop fuel (fun s => step env s.1 s.2) (counter + 1, q)
          (restarts + 1) (attempts + 1) := by
  have hstep : step env counter q
      = Except.error (ErrorSeverity.Recoverable (counter + 1, q)) := by
    obtain ⟨b1, b2, fr⟩ := env
    have hb1 : b1 = true := h1
    have hb2 : b2 = true := h2
    subst hb1
    subst hb2
    have h3x : rowSuccess fr = true := h3
    cases fr with
    | none =>
        unfold step
        rw [if_pos hc]
        rfl
    | some row =>
        unfold step
        rw [if_pos hc]
        dsimp only
        simp only [rowSuccess] at h3x
        cases hcol : RowModel.get_column0 row with
        | error e => simp_all
        | ok value =>
            simp only [hcol] at h3x
            simp only [hcol]
            cases hnull : ValueModel.is_null value with
            | true =>
                try simp only [hnull]
                rfl
            | false =>
                try simp [hnull] at h3x
                cases hs : ValueModel.get_string value with
                | error e => simp_all
                | ok s =>
                    try simp only [hnull]
                    try simp only [hs]
                    rfl
  refine ⟨hstep, ?_⟩
  rw [using_resource_loop]
  dsimp only
  rw [hstep]

/-- C7 witness: at counter 2 with an empty successful result set, the
Recoverable error carries `(3, q)` and the loop resumes from it. -/
theorem step_preserves_state_witness :
    step envOkQ 2 "q" = Except.error (ErrorSeverity.Recoverable (3, "q")) ∧
    using_resource_loop 6 (fun s => step envOkQ s.1 s.2) (2, "q") 0 0
      = using_resource_loop 5 (fun s => step envOkQ s.1 s.2) (3, "q") 1 1 :=
  step_preserves_state envOkQ 2 "q" 5 0 0 rfl rfl rfl (by decide)

/-- C2 counterexample: with every query succeeding, the example step
signals `Recoverable` on the third acquisition (state `(2, q)`) rather
than `Break`, and the run from `(0, q)` reports three restart cycles
with the final value arriving on the fourth attempt, not two and the
third. -/
theorem example_loop_not_break_on_third :
    step envOkQ 2 "SELECT" = Except.error (ErrorSeverity.Recoverable (3, "SELECT")) ∧
    using_resource_loop 10 (fun s => step envOkQ s.1 s.2) (0, "SELECT") 0 0
      = some (Except.ok (3, 4, ())) ∧
    ((3, 4) : Nat × Nat) ≠ (2, 3) :=
  ⟨rfl, rfl, by decide⟩

/-- C2 amended: for every query string, the step returns `Recoverable`
on the first three acquisitions (counters 0, 1, 2) and `Break` on the
fourth (counter 3), so the loop reports exactly three restart cycles
and returns its final value on the fourth attempt. -/
theorem example_loop_three_restarts (q : String) :
    step envOkQ 0 q = Except.error (ErrorSeverity.Recoverable (1, q)) ∧
    step envOkQ 1 q = Except.error (ErrorSeverity.Recoverable (2, q)) ∧
    step envOkQ 2 q = Except.error (ErrorSeverity.Recoverable (3, q)) ∧
    step envOkQ 3 q = Except.ok (UsingResource.Lost, Loop.Break ()) ∧
    using_resource_loop 10 (fun s => step envOkQ s.1 s.2) (0, q) 0 0
      = some (Except.ok (3, 4, ())) :=
  ⟨rfl, rfl, rfl, rfl, rfl⟩

end Restart3
